import Mathlib

/-!
Shallow embedding of `src/app-vite/lib/quasar-config-file.js` (quasar CLI,
"reactive configuration compiler").  JS strings are modelled as Lean
`String` (equality / concatenation / char-list inspection); machine-level
concerns do not arise.  Fallible / effectful code is modelled by explicit
outcome types and by threading the session state (temporary artifact file,
address-negotiation cache, module-level network flags).  External
collaborators (esbuild, port prober, external-IP discovery, file
validations, app extensions) are inputs to the embedded functions.
-/

namespace Quasar

/-! ## Small string helpers (JS `startsWith` / `endsWith` / regexes) -/

/-- Model of JS `s.startsWith(p)`: `p` is a prefix of `s` (on code points). -/
def strStartsWith (p s : String) : Bool :=
  p.data.isPrefixOf s.data

/-- ASCII lower-casing of one character (the slice of JS `toLowerCase`
relevant to scheme prefixes and host names). -/
def charLower (c : Char) : Char :=
  if 'A' ≤ c ∧ c ≤ 'Z' then Char.ofNat (c.toNat + 32) else c

/-- Model of JS `s.toLowerCase()`. -/
def strToLower (s : String) : String := String.mk (s.data.map charLower)

/-- Model of JS `s.endsWith("/")`: the last character is `'/'`. -/
def endsWithSlash (s : String) : Bool :=
  s.data.reverse.head? = some '/'

/-- Model of JS `s.startsWith("/")` (i.e. `s[0] === '/'`). -/
def startsWithSlash (s : String) : Bool :=
  s.data.head? = some '/'

/-- Model of `const urlRegex = /^http(s)?:\/\//i` applied via `.test`. -/
def urlRegexTest (s : String) : Bool :=
  strStartsWith "http://" (strToLower s) || strStartsWith "https://" (strToLower s)

/-- Model of `/^(Q[A-Z]|q-)/` (`quasarComponentRE`) applied via `.test`
to a string value. -/
def quasarComponentRE (s : String) : Bool :=
  match s.data with
  | 'q' :: '-' :: _ => true
  | 'Q' :: c :: _ => decide ('A' ≤ c) && decide (c ≤ 'Z')
  | _ => false

/-! ## `formatPublicPath` and the public-path derivation -/

/-- `if (!publicPath.endsWith('/')) publicPath = publicPath + '/'` -/
def ensureTrailingSlash (s : String) : String :=
  if endsWithSlash s then s else s ++ "/"

/-- Embeds `formatPublicPath` (source lines 56-74).  The empty string is
the only falsy JS string, hence models the absent/falsy argument. -/
def formatPublicPath (publicPath : String) : String :=
  if publicPath = "" then "/"
  else
    let p1 := ensureTrailingSlash publicPath
    if urlRegexTest p1 then p1
    else if startsWithSlash p1 then p1 else "/" ++ p1

/-- Embeds the dispatch at source lines 773-776:
`cfg.build.publicPath = cfg.build.publicPath && ['spa','pwa','ssr'].includes(modeName)
  ? formatPublicPath(cfg.build.publicPath)
  : (['capacitor','cordova','electron','bex'].includes(modeName) ? '' : '/')`. -/
def computePublicPath (modeName : String) (publicPath : String) : String :=
  if publicPath ≠ "" ∧ (modeName = "spa" ∨ modeName = "pwa" ∨ modeName = "ssr") then
    formatPublicPath publicPath
  else if modeName = "capacitor" ∨ modeName = "cordova" ∨ modeName = "electron" ∨ modeName = "bex" then
    ""
  else "/"

/-! ## Asset declarations: `parseAssetProperty`, `uniquePathFilter` -/

/-- A heterogeneous asset-declaration entry: a bare path string, an object
carrying an optional string `path` field plus further attributes, or a
falsy entry (`null` / `undefined` / `false`), which the pipeline's
`filter(_ => _)` drops. -/
inductive Asset where
  | astr (s : String)
  | aobj (path : Option String) (attrs : List (String × String))
  | afalsy
  deriving Repr, DecidableEq

/-- Normalized `{ path, ...attrs }` form of an asset entry. `path = none`
models a non-string `path` field left untouched by the parser. -/
structure ParsedAsset where
  path : Option String
  attrs : List (String × String)
  deriving Repr, DecidableEq

/-- JS truthiness of a raw entry (for `.filter(_ => _)`). -/
def assetTruthy : Asset → Bool
  | .astr s => s ≠ ""
  | .aobj _ _ => true
  | .afalsy => false

/-- JS truthiness of a parsed `path` (for `.filter(asset => asset.path)`). -/
def pathTruthy : Option String → Bool
  | none => false
  | some s => s ≠ ""

/-- `asset[0] === '~' ? asset.substring(1) : prefix + '/' + asset` -/
def parsePath (pre s : String) : String :=
  match s.data with
  | '~' :: rest => String.mk rest
  | _ => pre ++ "/" ++ s

/-- Embeds `parseAssetProperty` (source lines 85-100). -/
def parseAssetProperty (pre : String) : Asset → ParsedAsset
  | .astr s => { path := some (parsePath pre s), attrs := [] }
  | .aobj p attrs =>
    { path := match p with
        | some s => some (parsePath pre s)
        | none => none
      attrs := attrs }
  | .afalsy => { path := none, attrs := [] }

/-- Accumulator-style rendering of `uniquePathFilter` (source lines
106-108): `self.map(obj => obj.path).indexOf(value.path) === index` keeps
exactly the first entry for each `path` value. -/
def uniquePathFilterGo (seen : List (Option String)) : List ParsedAsset → List ParsedAsset
  | [] => []
  | a :: rest =>
    if a.path ∈ seen then uniquePathFilterGo seen rest
    else a :: uniquePathFilterGo (a.path :: seen) rest

/-- Embeds `uniquePathFilter` used as `.filter(uniquePathFilter)`. -/
def uniquePathFilter (l : List ParsedAsset) : List ParsedAsset :=
  uniquePathFilterGo [] l

/-- The full asset pipeline applied to `cfg.css` / `cfg.boot` (source
lines 624-636): `.filter(_ => _).map(parseAssetProperty(root))
.filter(asset => asset.path).filter(uniquePathFilter)`. -/
def assetPipeline (pre : String) (xs : List Asset) : List ParsedAsset :=
  uniquePathFilter
    (((xs.filter assetTruthy).map (parseAssetProperty pre)).filter
      (fun a => pathTruthy a.path))

/-! ## `getUniqueArray` -/

/-- One insertion into a JS `Set` rendered on ordered lists: appends the
element unless already present. -/
def guaStep {α : Type} [DecidableEq α] (acc : List α) (x : α) : List α :=
  if x ∈ acc then acc else acc ++ [x]

/-- Embeds `getUniqueArray = original => Array.from(new Set(original))`
(source lines 102-104): a JS `Set` keeps first-occurrence insertion
order. -/
def getUniqueArray {α : Type} [DecidableEq α] (original : List α) : List α :=
  original.foldl guaStep []

/-! ## `defaultPortMapping` -/

/-- Embeds the `defaultPortMapping` object (source lines 23-30);
a mode name outside the table maps to `0` (the JS lookup would be
`undefined`, but the table is only consulted for the six listed modes). -/
def defaultPortMapping (m : String) : Nat :=
  if m = "spa" then 9000
  else if m = "ssr" then 9100
  else if m = "pwa" then 9200
  else if m = "electron" then 9300
  else if m = "cordova" then 9400
  else if m = "capacitor" then 9500
  else 0

/-! ## Network address negotiator: `onAddress` (source lines 110-162)

The module-level mutable globals `cachedExternalHost` and `addressRunning`
are threaded explicitly as `NetState`.  The collaborators
`findClosestOpenPort` (a probe that may succeed with a port or fail with
one of the error messages of `utils/net.js`) and `getExternalIP` are
inputs. -/

/-- Result of a `findClosestOpenPort(port, host)` call: success with the
closest open port, or one of the failure categories distinguished by the
`catch` clause of `onAddress`. -/
inductive PortProbe where
  | ok (port : Nat)
  | errPortNotAvail
  | errAddressNotAvail
  | errOther
  deriving Repr, DecidableEq

/-- `true` when a probe result is an error (the `catch` branch runs). -/
def portProbeFails : PortProbe → Bool
  | .ok _ => false
  | _ => true

/-- The module-level globals `cachedExternalHost` / `addressRunning`. -/
structure NetState where
  cachedExternalHost : Option String
  addressRunning : Bool
  deriving Repr, DecidableEq

/-- Modelled from the spec: `localHostList` of `utils/net.js` (not under
`src/`) — the "well-known loopback/any-address" host values for which a
device-emulation target substitutes the externally-reachable IP. -/
def localHostList : List String :=
  [ "", "0.0.0.0", "::", "0000:0000:0000:0000:0000:0000:0000:0000",
    "localhost", "127.0.0.1", "::1" ]

/-- Result of `onAddress`: `exit1` models `process.exit(1)`; `retNull`
models `return null`; `retOk` returns the negotiated pair.  Each carries
the updated module-level state where the code can still run. -/
inductive AddrRes where
  | exit1
  | retNull (st : NetState)
  | retOk (host : String) (port : Nat) (st : NetState)
  deriving Repr, DecidableEq

/-- The device-target host substitution at the head of `onAddress`
(source lines 113-125): for cordova/capacitor with an unset or
loopback/any host, substitute the (cached) externally-reachable IP. -/
def onAddressResolveHost (st : NetState) (host : String) (mode : String)
    (externalIP : String) : String × NetState :=
  if (mode = "cordova" ∨ mode = "capacitor")
      ∧ (host = "" ∨ strToLower host ∈ localHostList) then
    match st.cachedExternalHost with
    | some h => (h, st)
    | none => (externalIP, { st with cachedExternalHost := some externalIP })
  else (host, st)

/-- The probing part of `onAddress` (source lines 127-161): probe for the
closest open port; on success warn only when the port moved and record
`addressRunning = true`; on failure always warn, then `process.exit(1)`
when no negotiation ever succeeded in the session, else return `null`. -/
def onAddressProbe (st1 : NetState) (host1 : String) (port : Nat)
    (probe : Nat → String → PortProbe) : Bool × AddrRes :=
  match probe port host1 with
  | .ok openPort =>
    (decide (port ≠ openPort), .retOk host1 openPort { st1 with addressRunning := true })
  | _ =>
    if st1.addressRunning = false then (true, .exit1)
    else (true, .retNull st1)

/-- Embeds `onAddress` (source lines 112-162).  The returned `Bool` is
`true` iff at least one `warn(...)` was emitted.  `externalIP` is the
value `getExternalIP()` would resolve to; `probe` is
`findClosestOpenPort`. -/
def onAddress (st : NetState) (host : String) (port : Nat) (mode : String)
    (externalIP : String) (probe : Nat → String → PortProbe) : Bool × AddrRes :=
  match onAddressResolveHost st host mode externalIP with
  | (host1, st1) => onAddressProbe st1 host1 port probe

/-! ## Data model for `#computeConfig` -/

/-- The slice of the merged user configuration that the embedded pipeline
reads.  Encodings of "unset": `""` for falsy string fields, `0` for the
falsy `devServer.port`, `none` for absent object fields.
`ssrPwa` is `cfg.ssr.pwa` after the `merge({ pwa: false, ... }, cfg.ssr)`
defaulting; `workboxMode` is the user's `pwa.workboxMode` (defaulted to
`'GenerateSW'` by the `merge` in the pwa branch when `none`). -/
structure UserConf where
  css : List Asset
  boot : List Asset
  extras : List String
  animations : List String
  components : List String
  directives : List String
  plugins : List String
  loadingSpinner : Option String
  notifySpinner : Option String
  devServerHost : String
  devServerPort : Nat
  publicPath : String
  ssrPwa : Bool
  workboxMode : Option String
  deriving Repr, DecidableEq

/-- The value returned (or resolved) by the user's factory.  `vobj` also
covers JS arrays (`isArray = true`): both satisfy `Object(x) === x`. -/
inductive JSValue where
  | vnull
  | vundefined
  | vbool (b : Bool)
  | vnum (n : Int)
  | vstr (s : String)
  | vobj (isArray : Bool) (c : UserConf)
  deriving Repr, DecidableEq

/-- `Object(userCfg) === userCfg`: true exactly for object-like values. -/
def jsIsObject : JSValue → Bool
  | .vobj _ _ => true
  | _ => false

/-- Result of invoking the user's factory (`await quasarConfigFn(ctx)`):
it throws / rejects, or resolves to a `JSValue`. -/
inductive FactoryResult where
  | thrown
  | resolved (v : JSValue)
  deriving Repr, DecidableEq

/-- The extracted export of the compiled artifact (`fnResult.default ||
fnResult`): either not callable, or a callable with its invocation
behaviour. -/
inductive ExportValue where
  | notFn
  | fn (result : FactoryResult)
  deriving Repr, DecidableEq

/-- The build context (`this.#ctx`) slice used by the embedded pipeline:
`dev` flag and the single active mode name (`ctx.mode.<m>` flags are
derived from it; `ctx.mode.pwa` may additionally be switched on by
`cfg.ssr.pwa` inside the pipeline). -/
structure Context where
  dev : Bool
  modeName : String
  deriving Repr, DecidableEq

/-- `AddressNegotiation` record `{ from: {host, port}, to: {host, port} }`
cached in `this.#address`. -/
structure AddressNegotiation where
  fromHost : String
  fromPort : Nat
  toHost : String
  toPort : Nat
  deriving Repr, DecidableEq

/-- Session-scoped mutable state threaded through a build cycle:
`this.#address`, the module-level net globals and whether the transient
compiled artifact currently exists on disk. -/
structure SessionState where
  address : Option AddressNegotiation
  net : NetState
  tempFileExists : Bool
  deriving Repr, DecidableEq

/-- Immutable per-session inputs and external collaborators of
`#computeConfig`: the context, the CLI options (`this.#opts`), the
validation gate result (`appFilesValidations`), whether the
`extendQuasarConf` hook throws, and the network collaborators. -/
structure CCEnv where
  ctx : Context
  optsHost : String
  optsPort : Nat
  verifyAddress : Bool
  validationOk : Bool
  extensionThrows : Bool
  externalIP : String
  probe : Nat → String → PortProbe

/-- A concrete environment whose prober always fails, for concrete
evaluations. -/
def envProbeFail : CCEnv :=
  { ctx := ⟨true, "spa"⟩, optsHost := "", optsPort := 0, verifyAddress := true,
    validationOk := true, extensionThrows := false, externalIP := "1.2.3.4",
    probe := fun _ _ => .errPortNotAvail }

/-- A concrete user configuration with every modelled field unset. -/
def rawEmpty : UserConf :=
  { css := [], boot := [], extras := [], animations := [], components := [],
    directives := [], plugins := [], loadingSpinner := none, notifySpinner := none,
    devServerHost := "", devServerPort := 0, publicPath := "", ssrPwa := false,
    workboxMode := none }

/-- A concrete session state in which a negotiation has already
succeeded (`addressRunning = true`). -/
def stRunning : SessionState :=
  { address := none, net := ⟨none, true⟩, tempFileExists := false }

/-- The distinct failure messages of `#computeConfig` /
`#buildAndWatch`. -/
inductive FailKind where
  | compileError
  | notAFunction
  | runtimeError
  | notAnObject
  | extensionFailed
  | networkError
  | validationFailed
  | invalidWorkboxMode
  deriving Repr, DecidableEq

/-- The normalized configuration slice produced by the embedded
pipeline. -/
structure NormalizedConf where
  css : List ParsedAsset
  boot : List ParsedAsset
  extras : List String
  animations : List String
  components : List String
  directives : List String
  plugins : List String
  devServerHost : String
  devServerPort : Nat
  publicPath : String
  deriving Repr, DecidableEq

/-- Outcome of `#computeConfig`: `fatal k` models `fatal(msg, 'FAIL')`
(process termination via the fatal-reporting collaborator), `exited`
models the `process.exit(1)` inside `onAddress`, `warned k` models
`warn(msg); return` (the `undefined` result), `ok` returns the
configuration.  Each carries the session state at that point. -/
inductive CCOutcome where
  | fatal (k : FailKind) (st : SessionState)
  | exited (st : SessionState)
  | warned (k : FailKind) (st : SessionState)
  | ok (cfg : NormalizedConf) (st : SessionState)
  deriving Repr, DecidableEq

/-- The session state carried by an outcome. -/
def outcomeState : CCOutcome → SessionState
  | .fatal _ st => st
  | .exited st => st
  | .warned _ st => st
  | .ok _ st => st

/-- `true` exactly on the `not an Object` failure outcomes. -/
def notObjectFailure : CCOutcome → Bool
  | .fatal .notAnObject _ => true
  | .warned .notAnObject _ => true
  | _ => false

/-! ## Dev-server host/port derivation and address negotiation
(source lines 560-622) -/

/-- `this.#opts.host || cfg.devServer.host || '0.0.0.0'` (lines 561-566). -/
def computeDevServerHost (optsHost userHost : String) : String :=
  if optsHost ≠ "" then optsHost
  else if userHost ≠ "" then userHost
  else "0.0.0.0"

/-- `this.#opts.port || cfg.devServer.port || defaultPortMapping[modeName]
+ (ssr && ssr.pwa ? 50 : 0)` (lines 568-582). -/
def computeDevServerPort (optsPort userPort : Nat) (modeName : String)
    (ssrPwa : Bool) : Nat :=
  if optsPort ≠ 0 then optsPort
  else if userPort ≠ 0 then userPort
  else defaultPortMapping modeName
    + (if modeName = "ssr" ∧ ssrPwa = true then 50 else 0)

/-- Result of the dev-server address section: the process exits (inside
`onAddress`), the negotiator returns `null` (a network error result), or
a host/port pair is established. -/
inductive DevServerRes where
  | exited (st : SessionState)
  | networkNull (st : SessionState)
  | okAddr (host : String) (port : Nat) (st : SessionState)
  deriving Repr, DecidableEq

/-- The `else` branch at lines 592-621: probe (only when
`verifyAddress === true`), and on success store the new
`AddressNegotiation` in `this.#address`. -/
def negotiateAddress (env : CCEnv) (host : String) (port : Nat)
    (st : SessionState) : DevServerRes :=
  if env.verifyAddress = true then
    match onAddress st.net host port env.ctx.modeName env.externalIP env.probe with
    | (_, .exit1) => .exited st
    | (_, .retNull net1) => .networkNull { st with net := net1 }
    | (_, .retOk h p net1) =>
      .okAddr h p
        { st with
          net := net1
          address := some ⟨host, port, h, p⟩ }
  else
    -- `to = addr` without probing; the cache is still updated
    .okAddr host port { st with address := some ⟨host, port, host, port⟩ }

/-- The cache test at lines 584-591: a cached negotiation whose `from`
pair equals the requested pair is reused without probing; otherwise a new
negotiation runs. -/
def resolveDevServerAt (env : CCEnv) (host : String) (port : Nat)
    (st : SessionState) : DevServerRes :=
  match st.address with
  | some a =>
    if a.fromHost = host ∧ a.fromPort = port then
      .okAddr a.toHost a.toPort st
    else negotiateAddress env host port st
  | none => negotiateAddress env host port st

/-- Embeds lines 560-622: skipped unless `ctx.dev && ctx.mode.bex !==
true` (in which case `cfg.devServer` keeps the user's raw values). -/
def resolveDevServer (env : CCEnv) (raw : UserConf) (st : SessionState) :
    DevServerRes :=
  if env.ctx.dev = true ∧ env.ctx.modeName ≠ "bex" then
    resolveDevServerAt env
      (computeDevServerHost env.optsHost raw.devServerHost)
      (computeDevServerPort env.optsPort raw.devServerPort
        env.ctx.modeName raw.ssrPwa)
      st
  else .okAddr raw.devServerHost raw.devServerPort st

/-! ## The normalization pipeline after the shape gate -/

/-- One spinner special-case (lines 653-658 resp. 660-665): a string
spinner matching `quasarComponentRE` is pushed onto the components
list. -/
def pushSpinner (comps : List String) (spinner : Option String) : List String :=
  match spinner with
  | some sp => if quasarComponentRE sp then comps ++ [sp] else comps
  | none => comps

/-- `cfg.framework.components` after the spinner special-cases (lines
650-665) and deduplication (line 667). -/
def finalComponents (raw : UserConf) : List String :=
  getUniqueArray
    (pushSpinner (pushSpinner raw.components raw.loadingSpinner) raw.notifySpinner)

/-- The `NormalizedConf` fields derived by the pipeline (the pure
derivations of lines 624-776 restricted to the modelled slice), given the
established dev-server pair. -/
def buildNormalized (env : CCEnv) (raw : UserConf) (host : String)
    (port : Nat) : NormalizedConf :=
  { css := if raw.css.length > 0 then assetPipeline "src/css" raw.css else []
    boot := if raw.boot.length > 0 then assetPipeline "boot" raw.boot else []
    extras := if raw.extras.length > 0 then getUniqueArray raw.extras else raw.extras
    animations := if raw.animations.length > 0 then getUniqueArray raw.animations else raw.animations
    components := finalComponents raw
    directives := getUniqueArray raw.directives
    plugins := getUniqueArray raw.plugins
    devServerHost := host
    devServerPort := port
    publicPath := computePublicPath env.ctx.modeName raw.publicPath }

/-- The effective `ctx.mode.pwa` flag when the pwa branch (line 905) is
reached: in ssr mode it was overwritten with `cfg.ssr.pwa === true`
(line 838). -/
def pwaModeActive (modeName : String) (ssrPwa : Bool) : Bool :=
  if modeName = "ssr" then ssrPwa else modeName = "pwa"

/-- Embeds `#computeConfig` from the `extendQuasarConf` hook dispatch
(line 526) to the returned `cfg` (line 1086), in source order: extension
hook, dev-server address section, pure derivations, `appFilesValidations`
gate (line 797), workbox-mode check (line 914).  Each failure site is
`fatal` when `failOnError` and a warning plus `undefined` result
otherwise. -/
def normalizeConfig (env : CCEnv) (st : SessionState) (raw : UserConf)
    (failOnError : Bool) : CCOutcome :=
  if env.extensionThrows = true then
    if failOnError then .fatal .extensionFailed st else .warned .extensionFailed st
  else
    match resolveDevServer env raw st with
    | .exited st1 => .exited st1
    | .networkNull st1 =>
      if failOnError then .fatal .networkError st1 else .warned .networkError st1
    | .okAddr host port st1 =>
      if env.validationOk = false then
        if failOnError then .fatal .validationFailed st1
        else .warned .validationFailed st1
      else
        if pwaModeActive env.ctx.modeName raw.ssrPwa = true
            ∧ raw.workboxMode.getD "GenerateSW" ≠ "GenerateSW"
            ∧ raw.workboxMode.getD "GenerateSW" ≠ "InjectManifest" then
          if failOnError then .fatal .invalidWorkboxMode st1
          else .warned .invalidWorkboxMode st1
        else
          .ok (buildNormalized env raw host port) st1

/-- Embeds `#computeConfig` (source lines 403-452 plus the pipeline):
shape gate on the export (`not a function`), factory invocation
(`runtime errors` — note: the artifact is deliberately NOT removed on
this path so the stack error can be investigated), object gate
(`not an Object`), then `fse.removeSync(this.#tempFile)` and the
normalization pipeline. -/
def computeConfig (env : CCEnv) (st : SessionState) (exportVal : ExportValue)
    (failOnError : Bool) : CCOutcome :=
  match exportVal with
  | .notFn =>
    let st1 := { st with tempFileExists := false }
    if failOnError then .fatal .notAFunction st1 else .warned .notAFunction st1
  | .fn factoryResult =>
    match factoryResult with
    | .thrown =>
      -- no `fse.removeSync` on this path
      if failOnError then .fatal .runtimeError st else .warned .runtimeError st
    | .resolved v =>
      match v with
      | .vobj _ raw =>
        normalizeConfig env { st with tempFileExists := false } raw failOnError
      | _ =>
        let st1 := { st with tempFileExists := false }
        if failOnError then .fatal .notAnObject st1 else .warned .notAnObject st1

/-! ## The watch loop's `onEnd` callback (source lines 317-389) -/

/-- Result of one esbuild cycle delivered to `build.onEnd`: compile
diagnostics present (`result.errors.length !== 0`), or a clean compile
followed by the artifact import, which may itself throw. -/
inductive CompileResult where
  | errors
  | clean (importResult : Option ExportValue)   -- `none` = import threw
  deriving Repr, DecidableEq

/-- Outcome of one watch cycle: silently skipped (not yet watching),
process terminated (`fatal(...)` or `process.exit`), warning with the
previous good configuration left in force (the debounced apply callback
`this.#opts.watch` is NOT invoked), first-build promise resolution, or a
debounced apply scheduling. -/
inductive WatchOutcome where
  | skipped (st : SessionState)
  | fatalExit (st : SessionState)
  | exited (st : SessionState)
  | warnedKeep (k : FailKind) (st : SessionState)
  | firstResolved (cfg : NormalizedConf) (st : SessionState)
  | applyScheduled (cfg : NormalizedConf) (st : SessionState)
  deriving Repr, DecidableEq

/-- Embeds the `build.onEnd` callback of `#buildAndWatch` (lines
317-389).  `isFirst` is the watcher-plugin's first-build flag (passed on
to `#computeConfig` as `failOnError`); `isWatching` is `this.#isWatching`.
Compile diagnostics remove the artifact (line 324); an import error does
NOT (the artifact is kept for investigating the stack error). -/
def buildAndWatchOnEnd (env : CCEnv) (isFirst isWatching : Bool)
    (st : SessionState) (res : CompileResult) : WatchOutcome :=
  if isFirst = false ∧ isWatching = false then .skipped st
  else
    match res with
    | .errors =>
      let st1 := { st with tempFileExists := false }
      if isFirst then .fatalExit st1 else .warnedKeep .compileError st1
    | .clean importResult =>
      match importResult with
      | none =>
        if isFirst then .fatalExit st else .warnedKeep .runtimeError st
      | some exportVal =>
        match computeConfig env st exportVal isFirst with
        | .fatal _ st1 => .fatalExit st1
        | .exited st1 => .exited st1
        | .warned k st1 => .warnedKeep k st1
        | .ok cfg st1 =>
          if isFirst then .firstResolved cfg st1 else .applyScheduled cfg st1

/-- `true` exactly on the process-terminating `fatal(...)` outcome. -/
def isFatalExit : WatchOutcome → Bool
  | .fatalExit _ => true
  | _ => false

/-- `true` exactly on the warn-and-keep outcome: a warning is emitted,
the previous good configuration stays in force and the debounced apply
callback is not invoked. -/
def isWarnedKeep : WatchOutcome → Bool
  | .warnedKeep _ _ => true
  | _ => false

/-- The session state carried by a `DevServerRes`. -/
def devServerResState : DevServerRes → SessionState
  | .exited st => st
  | .networkNull st => st
  | .okAddr _ _ st => st

/-- The session state carried by a `WatchOutcome`. -/
def watchOutcomeState : WatchOutcome → SessionState
  | .skipped st => st
  | .fatalExit st => st
  | .exited st => st
  | .warnedKeep _ st => st
  | .firstResolved _ st => st
  | .applyScheduled _ st => st

/-- The non-network failure modes of one watch cycle (compile
diagnostics, import error, non-callable export, factory throw/rejection,
non-object result, extension error, validation failure — the last with
address verification off so that the network cannot interfere). -/
def failsNonNetwork (env : CCEnv) (res : CompileResult) : Prop :=
  res = .errors
  ∨ res = .clean none
  ∨ res = .clean (some .notFn)
  ∨ res = .clean (some (.fn .thrown))
  ∨ (∃ v, res = .clean (some (.fn (.resolved v))) ∧ jsIsObject v = false)
  ∨ (env.extensionThrows = true
      ∧ ∃ b c, res = .clean (some (.fn (.resolved (.vobj b c)))))
  ∨ (env.validationOk = false ∧ env.verifyAddress = false
      ∧ ∃ b c, res = .clean (some (.fn (.resolved (.vobj b c)))))

/-- A concrete non-dev environment (the dev-server section is skipped). -/
def envNoDev : CCEnv :=
  { ctx := ⟨false, "spa"⟩, optsHost := "", optsPort := 0, verifyAddress := false,
    validationOk := true, extensionThrows := false, externalIP := "1.2.3.4",
    probe := fun _ _ => .errOther }

/-- A concrete user configuration declaring a loading spinner. -/
def rawSpinner : UserConf :=
  { rawEmpty with components := ["QBtn"], loadingSpinner := some "QSpinnerDots" }

/-! # Lemmas about `getUniqueArray` -/

theorem guaStep_foldl_mem {α : Type} [DecidableEq α] (l : List α) (acc : List α) (x : α) :
    x ∈ l.foldl guaStep acc ↔ x ∈ acc ∨ x ∈ l := by
  induction l generalizing acc with
  | nil => simp
  | cons a t ih =>
    simp only [List.foldl_cons, guaStep]
    by_cases h : a ∈ acc
    · rw [if_pos h, ih]
      simp only [List.mem_cons]
      constructor
      · rintro (hx | hx)
        · exact Or.inl hx
        · exact Or.inr (Or.inr hx)
      · rintro (hx | rfl | hx)
        · exact Or.inl hx
        · exact Or.inl h
        · exact Or.inr hx
    · rw [if_neg h, ih]
      simp only [List.mem_append, List.mem_singleton, List.mem_cons]
      tauto

theorem guaStep_foldl_nodup {α : Type} [DecidableEq α] (l : List α) (acc : List α)
    (h : acc.Nodup) : (l.foldl guaStep acc).Nodup := by
  induction l generalizing acc with
  | nil => simpa
  | cons a t ih =>
    simp only [List.foldl_cons, guaStep]
    by_cases ha : a ∈ acc
    · rw [if_pos ha]; exact ih acc h
    · rw [if_neg ha]
      refine ih _ ?_
      simp [List.nodup_append, h, ha]

theorem guaStep_foldl_of_nodup {α : Type} [DecidableEq α] (l : List α) (acc : List α)
    (hl : l.Nodup) (hd : ∀ x ∈ l, x ∉ acc) : l.foldl guaStep acc = acc ++ l := by
  induction l generalizing acc with
  | nil => simp
  | cons a t ih =>
    simp only [List.foldl_cons, guaStep]
    rw [if_neg (hd a (List.mem_cons_self a t))]
    rw [ih (acc ++ [a]) (List.nodup_cons.mp hl).2 ?_]
    · simp
    · intro x hx
      simp only [List.mem_append, List.mem_singleton]
      rintro (hacc | rfl)
      · exact hd x (List.mem_cons_of_mem _ hx) hacc
      · exact (List.nodup_cons.mp hl).1 hx

theorem mem_getUniqueArray {α : Type} [DecidableEq α] {x : α} {l : List α} :
    x ∈ getUniqueArray l ↔ x ∈ l := by
  unfold getUniqueArray
  rw [guaStep_foldl_mem]
  simp

theorem getUniqueArray_nodup {α : Type} [DecidableEq α] (l : List α) :
    (getUniqueArray l).Nodup :=
  guaStep_foldl_nodup l [] List.nodup_nil

theorem getUniqueArray_idem {α : Type} [DecidableEq α] (l : List α) :
    getUniqueArray (getUniqueArray l) = getUniqueArray l := by
  conv_lhs => rw [getUniqueArray]
  rw [guaStep_foldl_of_nodup _ [] (getUniqueArray_nodup l) (by simp)]
  simp

/-- C8: deduplication of the order-insensitive list fields removes exact
duplicates preserving first-occurrence order (`[a, b, a, c, b]` yields
`[a, b, c]`) and is idempotent. -/
theorem getUniqueArray_dedup_spec {α : Type} [DecidableEq α] (a b c : α) (l : List α)
    (hab : a ≠ b) (hac : a ≠ c) (hbc : b ≠ c) :
    getUniqueArray [a, b, a, c, b] = [a, b, c]
      ∧ getUniqueArray (getUniqueArray l) = getUniqueArray l := by
  refine ⟨?_, getUniqueArray_idem l⟩
  simp [getUniqueArray, guaStep, hab, hac, hbc, hab.symm, hac.symm, hbc.symm]

/-- Witness for C8 at concrete inputs. -/
theorem getUniqueArray_dedup_spec_witness :
    getUniqueArray [1, 2, 1, 3, 2] = [1, 2, 3]
      ∧ getUniqueArray (getUniqueArray ([4, 4, 5] : List Nat))
          = getUniqueArray [4, 4, 5] :=
  ⟨(getUniqueArray_dedup_spec 1 2 3 [] (by decide) (by decide) (by decide)).1,
   (getUniqueArray_dedup_spec 1 2 3 [4, 4, 5] (by decide) (by decide) (by decide)).2⟩

/-! # Lemmas about slashes and `formatPublicPath` -/

theorem data_append (s t : String) : (s ++ t).data = s.data ++ t.data := rfl

theorem endsWithSlash_append_slash (s : String) : endsWithSlash (s ++ "/") = true := by
  have h : (s ++ "/").data = s.data ++ ['/'] := rfl
  simp [endsWithSlash, h, List.reverse_append]

theorem startsWithSlash_slash_append (s : String) :
    startsWithSlash ("/" ++ s) = true := by
  have h : ("/" ++ s).data = '/' :: s.data := rfl
  simp [startsWithSlash, h]

theorem endsWithSlash_slash_append (s : String) (h : endsWithSlash s = true) :
    endsWithSlash ("/" ++ s) = true := by
  have hd : ("/" ++ s).data = '/' :: s.data := rfl
  simp only [endsWithSlash, hd, List.reverse_cons, decide_eq_true_eq] at h ⊢
  cases hrev : s.data.reverse with
  | nil => rw [hrev] at h; simp at h
  | cons a r =>
    rw [hrev] at h
    simp only [List.head?_cons, Option.some.injEq] at h
    subst h
    simp

theorem endsWithSlash_ensureTrailingSlash (s : String) :
    endsWithSlash (ensureTrailingSlash s) = true := by
  unfold ensureTrailingSlash
  by_cases h : endsWithSlash s = true
  · rw [if_pos h]; exact h
  · rw [if_neg h]; exact endsWithSlash_append_slash s

theorem ensureTrailingSlash_of_endsWithSlash (s : String)
    (h : endsWithSlash s = true) : ensureTrailingSlash s = s := by
  unfold ensureTrailingSlash
  rw [if_pos h]

/-- C3 counterexample: for a standard-web target, the absolute URL
`https://cdn.example.com/app` does NOT pass through unchanged — the code
appends a trailing `/` before the URL test. -/
theorem computePublicPath_url_cex :
    computePublicPath "spa" "https://cdn.example.com/app"
        = "https://cdn.example.com/app/"
      ∧ computePublicPath "spa" "https://cdn.example.com/app"
          ≠ "https://cdn.example.com/app" := by
  constructor <;> decide

/-- C3 amended: for spa/pwa/ssr a set public path is normalized so that
it ends with `'/'` and, unless it is an absolute URL, starts with `'/'`;
an absolute URL is returned with only a trailing `'/'` appended when
missing (unchanged when it already ends with `'/'`); absence of a value
yields `'/'`; capacitor/cordova/electron/bex modes always yield `''`. -/
theorem computePublicPath_amended (modeName publicPath : String) :
    ((modeName = "capacitor" ∨ modeName = "cordova" ∨ modeName = "electron"
        ∨ modeName = "bex")
      → computePublicPath modeName publicPath = "")
    ∧ (endsWithSlash publicPath = true → ensureTrailingSlash publicPath = publicPath)
    ∧ ((modeName = "spa" ∨ modeName = "pwa" ∨ modeName = "ssr") →
        (publicPath = "" → computePublicPath modeName publicPath = "/")
        ∧ (publicPath ≠ "" →
            (urlRegexTest (ensureTrailingSlash publicPath) = true →
              computePublicPath modeName publicPath
                = ensureTrailingSlash publicPath)
            ∧ (urlRegexTest (ensureTrailingSlash publicPath) = false →
                startsWithSlash (computePublicPath modeName publicPath) = true
                ∧ endsWithSlash (computePublicPath modeName publicPath) = true))) := by
  refine ⟨?_, ensureTrailingSlash_of_endsWithSlash publicPath, ?_⟩
  · intro hdev
    unfold computePublicPath
    rw [if_neg, if_pos hdev]
    rintro ⟨-, hspa⟩
    rcases hdev with h | h | h | h <;> subst h <;>
      rcases hspa with h | h | h <;> exact absurd h (by decide)
  · intro hspa
    constructor
    · intro hempty
      unfold computePublicPath
      rw [if_neg (by rintro ⟨hne, -⟩; exact hne hempty), if_neg]
      rcases hspa with h | h | h <;> subst h <;>
        rintro (h | h | h | h) <;> exact absurd h (by decide)
    · intro hne
      have hdisp : computePublicPath modeName publicPath
          = formatPublicPath publicPath := by
        unfold computePublicPath
        rw [if_pos ⟨hne, hspa⟩]
      constructor
      · intro hurl
        rw [hdisp]
        unfold formatPublicPath
        rw [if_neg hne]
        simp only [hurl, if_true]
      · intro hurl
        rw [hdisp]
        unfold formatPublicPath
        rw [if_neg hne]
        simp only [hurl, Bool.false_eq_true, if_false]
        by_cases hstart : startsWithSlash (ensureTrailingSlash publicPath) = true
        · rw [if_pos hstart]
          exact ⟨hstart, endsWithSlash_ensureTrailingSlash publicPath⟩
        · rw [if_neg hstart]
          exact ⟨startsWithSlash_slash_append _,
            endsWithSlash_slash_append _ (endsWithSlash_ensureTrailingSlash publicPath)⟩

/-- Witness for C3's amended theorem at concrete inputs. -/
theorem computePublicPath_amended_witness :
    computePublicPath "electron" "app" = ""
      ∧ computePublicPath "spa" "" = "/"
      ∧ startsWithSlash (computePublicPath "spa" "app") = true
      ∧ endsWithSlash (computePublicPath "spa" "app") = true
      ∧ computePublicPath "ssr" "https://cdn.example.com/app"
          = ensureTrailingSlash "https://cdn.example.com/app" := by
  refine ⟨(computePublicPath_amended "electron" "app").1 (by decide), ?_, ?_, ?_, ?_⟩
  · exact (((computePublicPath_amended "spa" "").2.2 (by decide)).1 (by decide))
  · exact ((((computePublicPath_amended "spa" "app").2.2 (by decide)).2
      (by decide)).2 (by decide)).1
  · exact ((((computePublicPath_amended "spa" "app").2.2 (by decide)).2
      (by decide)).2 (by decide)).2
  · exact (((computePublicPath_amended "ssr" "https://cdn.example.com/app").2.2
      (by decide)).2 (by decide)).1 (by decide)

/-! # Lemmas about the asset pipeline -/

theorem mem_of_mem_uniquePathFilterGo {a : ParsedAsset} :
    ∀ (l : List ParsedAsset) (seen : List (Option String)),
    a ∈ uniquePathFilterGo seen l → a ∈ l := by
  intro l
  induction l with
  | nil => intro seen h; simp [uniquePathFilterGo] at h
  | cons b t ih =>
    intro seen h
    simp only [uniquePathFilterGo] at h
    by_cases hb : b.path ∈ seen
    · rw [if_pos hb] at h
      exact List.mem_cons_of_mem _ (ih seen h)
    · rw [if_neg hb] at h
      rcases List.mem_cons.mp h with rfl | h
      · exact List.mem_cons_self _ _
      · exact List.mem_cons_of_mem _ (ih _ h)

theorem mem_uniquePathFilterGo_iff {a : ParsedAsset} :
    ∀ (l : List ParsedAsset) (seen : List (Option String)),
    a ∈ uniquePathFilterGo seen l
      ↔ a.path ∉ seen ∧ l.find? (fun b => decide (b.path = a.path)) = some a := by
  intro l
  induction l with
  | nil => intro seen; simp [uniquePathFilterGo]
  | cons b t ih =>
    intro seen
    simp only [uniquePathFilterGo]
    by_cases hb : b.path ∈ seen
    · rw [if_pos hb, ih]
      by_cases hpath : b.path = a.path
      · rw [List.find?_cons_of_pos _ (by simp [hpath])]
        constructor
        · rintro ⟨hns, -⟩
          exact absurd (hpath ▸ hb) hns
        · rintro ⟨hns, -⟩
          exact absurd (hpath ▸ hb) hns
      · rw [List.find?_cons_of_neg _ (by simp [hpath])]
    · rw [if_neg hb, List.mem_cons]
      by_cases hpath : b.path = a.path
      · rw [List.find?_cons_of_pos _ (by simp [hpath])]
        constructor
        · rintro (rfl | h)
          · exact ⟨hpath ▸ hb, rfl⟩
          · have hh := (ih _).mp h
            exact absurd (hpath ▸ List.mem_cons_self b.path seen) hh.1
        · rintro ⟨hns, hba⟩
          injection hba with hba
          exact Or.inl hba.symm
      · rw [List.find?_cons_of_neg _ (by simp [hpath])]
        constructor
        · rintro (rfl | h)
          · exact absurd rfl hpath
          · have hh := (ih _).mp h
            exact ⟨fun hs => hh.1 (List.mem_cons_of_mem _ hs), hh.2⟩
        · rintro ⟨hns, hf⟩
          refine Or.inr ((ih _).mpr ⟨?_, hf⟩)
          intro hmem
          rcases List.mem_cons.mp hmem with heq | hs
          · exact hpath heq.symm
          · exact hns hs

/-- `uniquePathFilter` keeps exactly the first entry for each resolved
path value. -/
theorem mem_uniquePathFilter_iff (l : List ParsedAsset) (a : ParsedAsset) :
    a ∈ uniquePathFilter l
      ↔ l.find? (fun b => decide (b.path = a.path)) = some a := by
  unfold uniquePathFilter
  rw [mem_uniquePathFilterGo_iff]
  simp

/-- C7: a leading `'~'` strips the prefixing convention and otherwise the
field-specific root is prepended, for string entries and for the `path`
field of object entries; pipeline survivors all have truthy (non-empty)
paths; deduplication is by resolved path keeping the first occurrence. -/
theorem parseAssetProperty_spec (pre p s : String) (rest : List Char)
    (attrs : List (String × String)) (xs : List Asset) (a : ParsedAsset)
    (l : List ParsedAsset)
    (hs : s.data.head? ≠ some '~')
    (hmem : a ∈ assetPipeline pre xs) :
    parseAssetProperty pre (.astr (String.mk ('~' :: rest)))
        = { path := some (String.mk rest), attrs := [] }
      ∧ parseAssetProperty pre (.astr s)
          = { path := some (pre ++ "/" ++ s), attrs := [] }
      ∧ parseAssetProperty "src/css" (.astr "~custom/path")
          = { path := some "custom/path", attrs := [] }
      ∧ parseAssetProperty "src/css" (.astr "foo.css")
          = { path := some "src/css/foo.css", attrs := [] }
      ∧ parseAssetProperty pre (.aobj (some p) attrs)
          = { path := some (parsePath pre p), attrs := attrs }
      ∧ pathTruthy a.path = true
      ∧ (∀ b : ParsedAsset, b ∈ uniquePathFilter l ↔
          l.find? (fun x => decide (x.path = b.path)) = some b) := by
  refine ⟨rfl, ?_, by decide, rfl, rfl, ?_, fun b => mem_uniquePathFilter_iff l b⟩
  · simp only [parseAssetProperty, ParsedAsset.mk.injEq, Option.some.injEq, and_true]
    unfold parsePath
    split
    · rename_i heq
      rw [heq] at hs
      simp at hs
    · rfl
  · unfold assetPipeline at hmem
    have h1 := mem_of_mem_uniquePathFilterGo _ _ hmem
    exact (List.mem_filter.mp h1).2

/-- Witness for C7 at concrete inputs. -/
theorem parseAssetProperty_spec_witness :
    pathTruthy (ParsedAsset.mk (some "boot/a") []).path = true
      ∧ parseAssetProperty "boot" (.astr "~x") = { path := some "x", attrs := [] } :=
  ⟨(parseAssetProperty_spec "boot" "p" "foo.css" "x".data [] [.astr "a"]
      ⟨some "boot/a", []⟩ [] (by decide) (by decide)).2.2.2.2.2.1,
   (parseAssetProperty_spec "boot" "p" "foo.css" "x".data [] [.astr "a"]
      ⟨some "boot/a", []⟩ [] (by decide) (by decide)).1⟩

/-! # Dev-server host/port derivation (C6) -/

/-- C6: the dev-server pair is only computed in dev mode outside bex (the
raw values pass through otherwise, independently of the prober);
CLI-supplied host/port override user configuration, then configured
values, then the per-mode default port table with a 50 offset exactly for
SSR-with-PWA; in dev mode with a fresh cache and no address verification
the resolved pair is exactly the computed one. -/
theorem devServerHostPort_spec (env : CCEnv) (raw : UserConf) (st : SessionState)
    (optsHost userHost : String) (optsPort userPort : Nat) :
    (¬ (env.ctx.dev = true ∧ env.ctx.modeName ≠ "bex") →
        ∀ p1 : Nat → String → PortProbe,
          resolveDevServer { env with probe := p1 } raw st
            = .okAddr raw.devServerHost raw.devServerPort st)
    ∧ (optsHost ≠ "" → computeDevServerHost optsHost userHost = optsHost)
    ∧ (optsHost = "" → userHost ≠ "" →
        computeDevServerHost optsHost userHost = userHost)
    ∧ computeDevServerHost "" "" = "0.0.0.0"
    ∧ (∀ m b, optsPort ≠ 0 → computeDevServerPort optsPort userPort m b = optsPort)
    ∧ (∀ m b, optsPort = 0 → userPort ≠ 0 →
        computeDevServerPort optsPort userPort m b = userPort)
    ∧ defaultPortMapping "spa" = 9000
    ∧ defaultPortMapping "ssr" = 9100
    ∧ defaultPortMapping "pwa" = 9200
    ∧ defaultPortMapping "electron" = 9300
    ∧ defaultPortMapping "cordova" = 9400
    ∧ defaultPortMapping "capacitor" = 9500
    ∧ (∀ m b, (m ≠ "ssr" ∨ b = false) →
        computeDevServerPort 0 0 m b = defaultPortMapping m)
    ∧ computeDevServerPort 0 0 "ssr" true = 9150
    ∧ (env.ctx.dev = true → env.ctx.modeName ≠ "bex" →
        env.verifyAddress = false → st.address = none →
        resolveDevServer env raw st
          = .okAddr (computeDevServerHost env.optsHost raw.devServerHost)
              (computeDevServerPort env.optsPort raw.devServerPort
                env.ctx.modeName raw.ssrPwa)
              { st with address := some ⟨
                   computeDevServerHost env.optsHost raw.devServerHost,
                   computeDevServerPort env.optsPort raw.devServerPort
                     env.ctx.modeName raw.ssrPwa,
                   computeDevServerHost env.optsHost raw.devServerHost,
                   computeDevServerPort env.optsPort raw.devServerPort
                     env.ctx.modeName raw.ssrPwa⟩ }) := by
  refine ⟨?_, ?_, ?_, rfl, ?_, ?_, by decide, by decide, by decide, by decide,
    by decide, by decide, ?_, by decide, ?_⟩
  · intro hnot p1
    unfold resolveDevServer
    rw [if_neg hnot]
  · intro h
    unfold computeDevServerHost
    rw [if_pos h]
  · intro h1 h2
    unfold computeDevServerHost
    rw [if_neg (by simp [h1]), if_pos h2]
  · intro m b h
    unfold computeDevServerPort
    rw [if_pos h]
  · intro m b h1 h2
    unfold computeDevServerPort
    rw [if_neg (by simp [h1]), if_pos h2]
  · intro m b h
    unfold computeDevServerPort
    rw [if_neg (by simp), if_neg (by simp)]
    rcases h with h | h
    · rw [if_neg (by rintro ⟨h1, -⟩; exact h h1), Nat.add_zero]
    · rw [if_neg (by rintro ⟨-, h2⟩; rw [h] at h2; exact Bool.false_ne_true h2),
        Nat.add_zero]
  · intro hdev hbex hverify hcache
    unfold resolveDevServer resolveDevServerAt negotiateAddress
    rw [if_pos ⟨hdev, hbex⟩, hcache]
    simp [hverify]

/-- Witness for C6 at concrete inputs. -/
theorem devServerHostPort_spec_witness :
    computeDevServerHost "10.0.0.5" "1.2.3.4" = "10.0.0.5"
      ∧ computeDevServerHost "" "1.2.3.4" = "1.2.3.4"
      ∧ computeDevServerPort 8080 9999 "spa" false = 8080
      ∧ computeDevServerPort 0 9999 "spa" false = 9999
      ∧ computeDevServerPort 0 0 "capacitor" false = defaultPortMapping "capacitor"
      ∧ computeDevServerPort 0 0 "ssr" true = 9150 := by
  have henv : CCEnv :=
    { ctx := ⟨false, "spa"⟩, optsHost := "", optsPort := 0, verifyAddress := false,
      validationOk := true, extensionThrows := false, externalIP := "",
      probe := fun _ _ => .errOther }
  have hraw : UserConf :=
    { css := [], boot := [], extras := [], animations := [], components := [],
      directives := [], plugins := [], loadingSpinner := none, notifySpinner := none,
      devServerHost := "", devServerPort := 0, publicPath := "", ssrPwa := false,
      workboxMode := none }
  have h1 := devServerHostPort_spec henv hraw ⟨none, ⟨none, false⟩, true⟩
    "10.0.0.5" "1.2.3.4" 8080 9999
  have h2 := devServerHostPort_spec henv hraw ⟨none, ⟨none, false⟩, true⟩
    "" "1.2.3.4" 0 9999
  exact ⟨h1.2.1 (by decide), h2.2.2.1 rfl (by decide),
    h1.2.2.2.2.1 "spa" false (by decide),
    h2.2.2.2.2.2.1 "spa" false rfl (by decide),
    h1.2.2.2.2.2.2.2.2.2.2.2.2.1 "capacitor" false (Or.inl (by decide)),
    h1.2.2.2.2.2.2.2.2.2.2.2.2.2.1⟩

/-! # The execution-validation shape gate (C9) -/

theorem normalizeConfig_not_notAnObject (env : CCEnv) (st : SessionState)
    (raw : UserConf) (foe : Bool) :
    notObjectFailure (normalizeConfig env st raw foe) = false := by
  unfold normalizeConfig
  split
  · split <;> rfl
  · split
    · rfl
    · split <;> rfl
    · split
      · split <;> rfl
      · split
        · split <;> rfl
        · rfl

/-- C9: the factory's resolved value is rejected with the `not an
Object` shape error exactly when it is null/undefined or a primitive;
arrays count as objects and normalization proceeds on them. -/
theorem shapeGate_notAnObject (env : CCEnv) (st : SessionState) (v : JSValue)
    (foe : Bool) :
    (notObjectFailure (computeConfig env st (.fn (.resolved v)) foe) = true
      ↔ jsIsObject v = false)
    ∧ (∀ isArray : Bool, ∀ c : UserConf, jsIsObject (.vobj isArray c) = true)
    ∧ (∀ isArray : Bool, ∀ c : UserConf,
        computeConfig env st (.fn (.resolved (.vobj isArray c))) foe
          = normalizeConfig env { st with tempFileExists := false } c foe) := by
  refine ⟨?_, fun _ _ => rfl, fun _ _ => rfl⟩
  cases v with
  | vobj isArray c =>
    simp only [computeConfig, jsIsObject]
    rw [normalizeConfig_not_notAnObject]
    simp
  | vnull => cases foe <;> simp [computeConfig, notObjectFailure, jsIsObject]
  | vundefined => cases foe <;> simp [computeConfig, notObjectFailure, jsIsObject]
  | vbool b => cases foe <;> simp [computeConfig, notObjectFailure, jsIsObject]
  | vnum n => cases foe <;> simp [computeConfig, notObjectFailure, jsIsObject]
  | vstr s => cases foe <;> simp [computeConfig, notObjectFailure, jsIsObject]

/-! # Transient artifact lifetime (C2) -/

theorem resolveDevServer_tempFile (env : CCEnv) (raw : UserConf)
    (st : SessionState) :
    (devServerResState (resolveDevServer env raw st)).tempFileExists
      = st.tempFileExists := by
  unfold resolveDevServer resolveDevServerAt negotiateAddress
  split
  · split
    · split
      · rfl
      · split
        · split <;> rfl
        · rfl
    · split
      · split <;> rfl
      · rfl
  · rfl

theorem normalizeConfig_tempFile (env : CCEnv) (st : SessionState)
    (raw : UserConf) (foe : Bool) :
    (outcomeState (normalizeConfig env st raw foe)).tempFileExists
      = st.tempFileExists := by
  unfold normalizeConfig
  split
  · split <;> rfl
  · have h := resolveDevServer_tempFile env raw st
    split
    · rename_i heq
      rw [heq] at h
      exact h
    · rename_i heq
      rw [heq] at h
      split <;> exact h
    · rename_i heq
      rw [heq] at h
      split
      · split <;> exact h
      · split
        · split <;> exact h
        · exact h

/-- C2 counterexample: with the artifact on disk, a factory runtime
error (a terminal outcome of the cycle) leaves it on disk — contradicting
"removed after every terminal outcome". -/
theorem tempFileKeptOnRuntimeError_cex :
    computeConfig
        { ctx := ⟨true, "spa"⟩, optsHost := "", optsPort := 0,
          verifyAddress := false, validationOk := true, extensionThrows := false,
          externalIP := "1.2.3.4", probe := fun p _ => .ok p }
        { address := none, net := ⟨none, false⟩, tempFileExists := true }
        (.fn .thrown) false
      = .warned .runtimeError
          { address := none, net := ⟨none, false⟩, tempFileExists := true }
      ∧ ({ address := none, net := ⟨none, false⟩,
            tempFileExists := true } : SessionState).tempFileExists = true :=
  ⟨rfl, rfl⟩

/-- C2 amended: the transient artifact is removed on compile failure, on
the two shape errors and before the merge on a successful load (hence
also before any extension / network / validation / workbox failure); but
on a runtime error — import failure or factory throw/rejection — it is
deliberately left on disk so the stack error can be investigated. -/
theorem tempFileRemoval_amended (env : CCEnv) (st : SessionState)
    (v : JSValue) (foe isFirst : Bool) :
    (outcomeState (computeConfig env st .notFn foe)).tempFileExists = false
    ∧ computeConfig env st (.fn .thrown) foe
        = (if foe then .fatal .runtimeError st else .warned .runtimeError st)
    ∧ (jsIsObject v = false →
        (outcomeState (computeConfig env st (.fn (.resolved v)) foe)).tempFileExists
          = false)
    ∧ (∀ isArray : Bool, ∀ c : UserConf,
        (outcomeState (computeConfig env st
          (.fn (.resolved (.vobj isArray c))) foe)).tempFileExists = false)
    ∧ (watchOutcomeState
        (buildAndWatchOnEnd env isFirst true st .errors)).tempFileExists = false
    ∧ buildAndWatchOnEnd env isFirst true st (.clean none)
        = (if isFirst then .fatalExit st else .warnedKeep .runtimeError st) := by
  refine ⟨?_, ?_, ?_, ?_, ?_, ?_⟩
  · unfold computeConfig
    cases foe <;> rfl
  · rfl
  · intro hv
    cases v with
    | vobj isArray c => simp [jsIsObject] at hv
    | vnull => unfold computeConfig; cases foe <;> rfl
    | vundefined => unfold computeConfig; cases foe <;> rfl
    | vbool b => unfold computeConfig; cases foe <;> rfl
    | vnum n => unfold computeConfig; cases foe <;> rfl
    | vstr s => unfold computeConfig; cases foe <;> rfl
  · intro isArray c
    unfold computeConfig
    exact normalizeConfig_tempFile env _ c foe
  · unfold buildAndWatchOnEnd
    rcases isFirst with _ | _ <;> rfl
  · unfold buildAndWatchOnEnd
    rcases isFirst with _ | _ <;> rfl

/-- Witness for C2's amended theorem at concrete inputs. -/
theorem tempFileRemoval_amended_witness :
    (outcomeState (computeConfig
        { ctx := ⟨true, "spa"⟩, optsHost := "", optsPort := 0,
          verifyAddress := false, validationOk := true, extensionThrows := false,
          externalIP := "1.2.3.4", probe := fun p _ => .ok p }
        { address := none, net := ⟨none, false⟩, tempFileExists := true }
        (.fn (.resolved .vnull)) false)).tempFileExists = false :=
  (tempFileRemoval_amended
    { ctx := ⟨true, "spa"⟩, optsHost := "", optsPort := 0,
      verifyAddress := false, validationOk := true, extensionThrows := false,
      externalIP := "1.2.3.4", probe := fun p _ => .ok p }
    { address := none, net := ⟨none, false⟩, tempFileExists := true }
    .vnull false true).2.2.1 (by decide)

/-! # Address negotiation caching (C4) and probe failure (C5) -/

theorem onAddressResolveHost_of_not_device (st : NetState) (host : String)
    (mode externalIP : String)
    (hmode : ¬(mode = "cordova" ∨ mode = "capacitor")) :
    onAddressResolveHost st host mode externalIP = (host, st) := by
  unfold onAddressResolveHost
  rw [if_neg (by rintro ⟨hm, -⟩; exact hmode hm)]

theorem onAddressResolveHost_addressRunning (st : NetState)
    (host mode ip : String) :
    (onAddressResolveHost st host mode ip).2.addressRunning
      = st.addressRunning := by
  unfold onAddressResolveHost
  split
  · split <;> rfl
  · rfl

theorem onAddress_eta (st : NetState) (host : String) (port : Nat)
    (mode ip : String) (probe : Nat → String → PortProbe) :
    onAddress st host port mode ip probe
      = onAddressProbe (onAddressResolveHost st host mode ip).2
          (onAddressResolveHost st host mode ip).1 port probe := rfl

/-- C4: a cached negotiation for the same requested `(host, port)` pair
is reused without invoking the prober (the result is independent of the
prober and equal to the cached `to` pair, with the cache untouched); a
differing pair triggers a fresh probe whose result is stored as the new
cache; failure outcomes never replace the cache. -/
theorem addressNegotiationCaching (env : CCEnv) (host : String) (port q : Nat)
    (st : SessionState) (a : AddressNegotiation) :
    (st.address = some a → a.fromHost = host → a.fromPort = port →
      ∀ p1 : Nat → String → PortProbe,
        resolveDevServerAt { env with probe := p1 } host port st
          = .okAddr a.toHost a.toPort st)
    ∧ (st.address = some a → ¬(a.fromHost = host ∧ a.fromPort = port) →
        env.verifyAddress = true →
        ¬(env.ctx.modeName = "cordova" ∨ env.ctx.modeName = "capacitor") →
        env.probe port host = .ok q →
        resolveDevServerAt env host port st
          = .okAddr host q
              { st with
                net := { st.net with addressRunning := true }
                address := some ⟨host, port, host, q⟩ })
    ∧ (∀ s : SessionState, resolveDevServerAt env host port st = .networkNull s →
        s.address = st.address)
    ∧ (∀ s : SessionState, resolveDevServerAt env host port st = .exited s →
        s.address = st.address) := by
  refine ⟨?_, ?_, ?_, ?_⟩
  · intro hc hfh hfp p1
    simp only [resolveDevServerAt, hc]
    rw [if_pos ⟨hfh, hfp⟩]
  · intro hc hne hv hmode hprobe
    simp only [resolveDevServerAt, hc, negotiateAddress]
    rw [if_neg hne, if_pos hv, onAddress_eta,
      onAddressResolveHost_of_not_device st.net host env.ctx.modeName
        env.externalIP hmode]
    simp only [onAddressProbe]
    rw [hprobe]
  · intro s hres
    unfold resolveDevServerAt negotiateAddress at hres
    split at hres
    · split at hres
      · cases hres
      · split at hres
        · split at hres
          · cases hres
          · injection hres with h
            subst h
            rfl
          · cases hres
        · cases hres
    · split at hres
      · split at hres
        · cases hres
        · injection hres with h
          subst h
          rfl
        · cases hres
      · cases hres
  · intro s hres
    unfold resolveDevServerAt negotiateAddress at hres
    split at hres
    · split at hres
      · cases hres
      · split at hres
        · split at hres
          · injection hres with h
            subst h
            rfl
          · cases hres
          · cases hres
        · cases hres
    · split at hres
      · split at hres
        · injection hres with h
          subst h
          rfl
        · cases hres
        · cases hres
      · cases hres

/-- Witness for C4 at concrete inputs: the first conjunct reused with a
failing prober, the second with a fresh successful probe. -/
theorem addressNegotiationCaching_witness :
    resolveDevServerAt
        { ctx := ⟨true, "spa"⟩, optsHost := "", optsPort := 0,
          verifyAddress := true, validationOk := true, extensionThrows := false,
          externalIP := "1.2.3.4", probe := fun _ _ => .errOther }
        "0.0.0.0" 9100
        { address := some ⟨"0.0.0.0", 9100, "0.0.0.0", 9111⟩,
          net := ⟨none, true⟩, tempFileExists := false }
      = .okAddr "0.0.0.0" 9111
          { address := some ⟨"0.0.0.0", 9100, "0.0.0.0", 9111⟩,
            net := ⟨none, true⟩, tempFileExists := false }
    ∧ resolveDevServerAt
        { ctx := ⟨true, "spa"⟩, optsHost := "", optsPort := 0,
          verifyAddress := true, validationOk := true, extensionThrows := false,
          externalIP := "1.2.3.4", probe := fun _ _ => .ok 9105 }
        "0.0.0.0" 9100
        { address := some ⟨"9.9.9.9", 1, "9.9.9.9", 1⟩,
          net := ⟨none, true⟩, tempFileExists := false }
      = .okAddr "0.0.0.0" 9105
          { address := some ⟨"0.0.0.0", 9100, "0.0.0.0", 9105⟩,
            net := ⟨none, true⟩, tempFileExists := false } := by
  constructor
  · exact (addressNegotiationCaching
      { ctx := ⟨true, "spa"⟩, optsHost := "", optsPort := 0,
        verifyAddress := true, validationOk := true, extensionThrows := false,
        externalIP := "1.2.3.4", probe := fun _ _ => .ok 7 }
      "0.0.0.0" 9100 9105
      { address := some ⟨"0.0.0.0", 9100, "0.0.0.0", 9111⟩,
        net := ⟨none, true⟩, tempFileExists := false }
      ⟨"0.0.0.0", 9100, "0.0.0.0", 9111⟩).1 rfl rfl rfl (fun _ _ => .errOther)
  · exact (addressNegotiationCaching
      { ctx := ⟨true, "spa"⟩, optsHost := "", optsPort := 0,
        verifyAddress := true, validationOk := true, extensionThrows := false,
        externalIP := "1.2.3.4", probe := fun _ _ => .ok 9105 }
      "0.0.0.0" 9100 9105
      { address := some ⟨"9.9.9.9", 1, "9.9.9.9", 1⟩,
        net := ⟨none, true⟩, tempFileExists := false }
      ⟨"9.9.9.9", 1, "9.9.9.9", 1⟩).2.1 rfl (by decide) rfl (by decide) rfl

theorem onAddressProbe_fails (st1 : NetState) (host1 : String) (port : Nat)
    (probe : Nat → String → PortProbe)
    (hf : portProbeFails (probe port host1) = true) :
    onAddressProbe st1 host1 port probe
      = if st1.addressRunning = false then (true, .exit1)
        else (true, .retNull st1) := by
  unfold onAddressProbe
  cases hp : probe port host1 with
  | ok p => rw [hp] at hf; exact Bool.noConfusion hf
  | errPortNotAvail => rfl
  | errAddressNotAvail => rfl
  | errOther => rfl

/-- C5: when probing fails, `onAddress` reports a warning and terminates
the process when no negotiation ever succeeded in the session, else
returns `null` leaving `addressRunning` set; a `null` negotiation makes
the calling cycle fail fatally exactly when it is the first build, and
otherwise warn and keep the previous configuration. -/
theorem addressProbeFailure_spec (stn : NetState) (host : String) (port : Nat)
    (mode ip : String) (probe : Nat → String → PortProbe)
    (env : CCEnv) (raw : UserConf) (st st1 : SessionState) (foe : Bool)
    (hfail : ∀ p h, portProbeFails (probe p h) = true)
    (hext : env.extensionThrows = false)
    (hres : resolveDevServer env raw st = .networkNull st1) :
    (onAddress stn host port mode ip probe).1 = true
    ∧ (stn.addressRunning = false →
        (onAddress stn host port mode ip probe).2 = .exit1)
    ∧ (stn.addressRunning = true →
        (onAddress stn host port mode ip probe).2
            = .retNull (onAddressResolveHost stn host mode ip).2
          ∧ (onAddressResolveHost stn host mode ip).2.addressRunning = true)
    ∧ normalizeConfig env st raw foe
        = (if foe then .fatal .networkError st1
           else .warned .networkError st1) := by
  have hrun := onAddressResolveHost_addressRunning stn host mode ip
  have hprobe := hfail port (onAddressResolveHost stn host mode ip).1
  have hfails := onAddressProbe_fails (onAddressResolveHost stn host mode ip).2
    (onAddressResolveHost stn host mode ip).1 port probe hprobe
  refine ⟨?_, ?_, ?_, ?_⟩
  · rw [onAddress_eta, hfails]
    split <;> rfl
  · intro hr
    rw [onAddress_eta, hfails, if_pos (by rw [hrun]; exact hr)]
  · intro hr
    refine ⟨?_, by rw [hrun]; exact hr⟩
    rw [onAddress_eta, hfails, if_neg (by rw [hrun, hr]; simp)]
  · unfold normalizeConfig
    rw [if_neg (by rw [hext]; exact Bool.false_ne_true), hres]

/-- Witness for C5 at concrete inputs. -/
theorem addressProbeFailure_spec_witness :
    (onAddress ⟨none, false⟩ "0.0.0.0" 9000 "spa" "1.2.3.4"
        (fun _ _ => .errPortNotAvail)).2 = .exit1
    ∧ (onAddress ⟨none, true⟩ "0.0.0.0" 9000 "spa" "1.2.3.4"
        (fun _ _ => .errPortNotAvail)).1 = true
    ∧ normalizeConfig envProbeFail stRunning rawEmpty false
        = .warned .networkError stRunning := by
  refine ⟨?_, ?_, ?_⟩
  · exact (addressProbeFailure_spec ⟨none, false⟩ "0.0.0.0" 9000 "spa" "1.2.3.4"
      (fun _ _ => .errPortNotAvail) envProbeFail rawEmpty stRunning stRunning false
      (fun _ _ => rfl) rfl (by decide)).2.1 rfl
  · exact (addressProbeFailure_spec ⟨none, true⟩ "0.0.0.0" 9000 "spa" "1.2.3.4"
      (fun _ _ => .errPortNotAvail) envProbeFail rawEmpty stRunning stRunning false
      (fun _ _ => rfl) rfl (by decide)).1
  · exact (addressProbeFailure_spec ⟨none, true⟩ "0.0.0.0" 9000 "spa" "1.2.3.4"
      (fun _ _ => .errPortNotAvail) envProbeFail rawEmpty stRunning stRunning false
      (fun _ _ => rfl) rfl (by decide)).2.2.2

/-! # The spinner special-case (C10) -/

theorem mem_pushSpinner_self (comps : List String) (sp : String)
    (hre : quasarComponentRE sp = true) :
    sp ∈ pushSpinner comps (some sp) := by
  simp [pushSpinner, hre]

theorem mem_pushSpinner_mono (comps : List String) (spinner : Option String)
    (x : String) (hx : x ∈ comps) : x ∈ pushSpinner comps spinner := by
  cases spinner with
  | none => exact hx
  | some sp =>
    simp only [pushSpinner]
    split
    · exact List.mem_append_left _ hx
    · exact hx

theorem mem_finalComponents (raw : UserConf) (sp : String)
    (hsp : raw.loadingSpinner = some sp ∨ raw.notifySpinner = some sp)
    (hre : quasarComponentRE sp = true) :
    sp ∈ finalComponents raw := by
  unfold finalComponents
  rw [mem_getUniqueArray]
  rcases hsp with hsp | hsp
  · rw [hsp]
    exact mem_pushSpinner_mono _ _ _ (mem_pushSpinner_self _ _ hre)
  · rw [hsp]
    exact mem_pushSpinner_self _ _ hre

theorem normalizeConfig_ok_inv (env : CCEnv) (st : SessionState) (raw : UserConf)
    (foe : Bool) (cfg : NormalizedConf) (st1 : SessionState)
    (h : normalizeConfig env st raw foe = .ok cfg st1) :
    ∃ host port, resolveDevServer env raw st = .okAddr host port st1
      ∧ cfg = buildNormalized env raw host port := by
  unfold normalizeConfig at h
  split at h
  · split at h <;> cases h
  · split at h
    · cases h
    · split at h <;> cases h
    · rename_i host port st2 heq
      split at h
      · split at h <;> cases h
      · split at h
        · split at h <;> cases h
        · injection h with h1 h2
          subst h2
          exact ⟨host, port, heq, h1.symm⟩

/-- C10: a string spinner in `framework.config.loading` or
`framework.config.notify` matching the quasar component name pattern is
appended before deduplication, so the final components list of a
successful normalization contains it. -/
theorem spinnerComponentIncluded (env : CCEnv) (st : SessionState)
    (raw : UserConf) (foe : Bool) (cfg : NormalizedConf) (st1 : SessionState)
    (sp : String)
    (h : normalizeConfig env st raw foe = .ok cfg st1)
    (hsp : raw.loadingSpinner = some sp ∨ raw.notifySpinner = some sp)
    (hre : quasarComponentRE sp = true) :
    sp ∈ cfg.components := by
  obtain ⟨host, port, -, hcfg⟩ := normalizeConfig_ok_inv env st raw foe cfg st1 h
  subst hcfg
  show sp ∈ finalComponents raw
  exact mem_finalComponents raw sp hsp hre

/-- Witness for C10 at concrete inputs. -/
theorem spinnerComponentIncluded_witness :
    "QSpinnerDots" ∈ (buildNormalized envNoDev rawSpinner "" 0).components :=
  spinnerComponentIncluded envNoDev stRunning rawSpinner false
    (buildNormalized envNoDev rawSpinner "" 0) stRunning "QSpinnerDots"
    (by decide) (Or.inl rfl) (by decide)

/-! # First-build-fatal versus later-warn (C1) -/

theorem resolveDevServer_noVerify (env : CCEnv) (raw : UserConf)
    (st : SessionState) (h : env.verifyAddress = false) :
    ∃ hp pp st1, resolveDevServer env raw st = .okAddr hp pp st1 := by
  unfold resolveDevServer resolveDevServerAt negotiateAddress
  split
  · split
    · split
      · exact ⟨_, _, _, rfl⟩
      · rw [if_neg (by rw [h]; exact Bool.false_ne_true)]
        exact ⟨_, _, _, rfl⟩
    · rw [if_neg (by rw [h]; exact Bool.false_ne_true)]
      exact ⟨_, _, _, rfl⟩
  · exact ⟨_, _, _, rfl⟩

/-- C1: any non-network failure of a watch cycle (compile diagnostics,
artifact import error, non-callable export, factory throw, non-object
result, extension error, validation failure) is fatal — process-terminating — on
the session's first build, while the identical failure on a later cycle
(once watching) only warns: the previous good configuration stays in
force and the debounced apply callback is not invoked. -/
theorem firstBuildFatal_laterWarns (env : CCEnv) (st : SessionState)
    (res : CompileResult) (hfail : failsNonNetwork env res) :
    isFatalExit (buildAndWatchOnEnd env true true st res) = true
    ∧ isWarnedKeep (buildAndWatchOnEnd env false true st res) = true := by
  rcases hfail with rfl | rfl | rfl | rfl | ⟨v, rfl, hv⟩ | ⟨hext, b, c, rfl⟩
    | ⟨hval, hverify, b, c, rfl⟩
  · exact ⟨rfl, rfl⟩
  · exact ⟨rfl, rfl⟩
  · exact ⟨rfl, rfl⟩
  · exact ⟨rfl, rfl⟩
  · cases v with
    | vobj b c => simp [jsIsObject] at hv
    | vnull => exact ⟨rfl, rfl⟩
    | vundefined => exact ⟨rfl, rfl⟩
    | vbool b => exact ⟨rfl, rfl⟩
    | vnum n => exact ⟨rfl, rfl⟩
    | vstr s => exact ⟨rfl, rfl⟩
  · constructor <;>
      simp [buildAndWatchOnEnd, computeConfig, normalizeConfig, hext, isFatalExit,
        isWarnedKeep]
  · have hrd := resolveDevServer_noVerify env c
      { st with tempFileExists := false } hverify
    obtain ⟨hp, pp, st1, hres⟩ := hrd
    by_cases hext : env.extensionThrows = true
    · constructor <;>
        simp [buildAndWatchOnEnd, computeConfig, normalizeConfig, hext, isFatalExit,
          isWarnedKeep]
    · constructor <;>
        simp [buildAndWatchOnEnd, computeConfig, normalizeConfig, hext, hres, hval,
          isFatalExit, isWarnedKeep]

/-- Witness for C1 at concrete inputs. -/
theorem firstBuildFatal_laterWarns_witness :
    isFatalExit (buildAndWatchOnEnd envProbeFail true true stRunning .errors) = true
    ∧ isWarnedKeep (buildAndWatchOnEnd envProbeFail false true stRunning .errors)
        = true :=
  firstBuildFatal_laterWarns envProbeFail stRunning .errors (Or.inl rfl)

end Quasar
